import Mathlib

/-!
# CSV generator (`tools/csv-generator/csv-generator.go`)

A shallow embedding of the ClusterServiceVersion generator.  The program is a
straight line of field assignments on one in-memory document, guarded by a
single structural check, followed by one file write.

Conventions of the embedding:

* a Go `map[string]string` is an association list; a `nil` map is `none`;
  `m[k] = v` is `GoMap.set`, a read is `GoMap.get`, and `range m` visits the
  entries of the list in the order in which they are given (Go leaves that
  order unspecified, so the callers quantify over it);
* a Go panic is a value of `Panic`; a function that may panic returns
  `Except Panic _`;
* side effects (file write, standard output) are recorded as a list of
  `Effect`s, in program order;
* library calls whose code is outside the file (`csvtools`, `encoding/json`,
  `semver`, `path/filepath`, `io/ioutil`) are fields of `Env`.
-/

namespace CsvGenerator

/-! ## Go maps -/

/-- A non-nil Go `map[string]string`, as the list of its entries. -/
abbrev GoMap := List (String × String)

/-- Map read `m[k]` with the comma-ok result folded into an `Option`. -/
def GoMap.get : GoMap → String → Option String
  | [], _ => none
  | (k', v') :: rest, k => if k' = k then some v' else GoMap.get rest k

/-- Map write `m[k] = v`: replaces the entry of `k` when there is one, adds an
entry otherwise. -/
def GoMap.set : GoMap → String → String → GoMap
  | [], k, v => [(k, v)]
  | (k', v') :: rest, k, v =>
    if k' = k then (k, v) :: rest else (k', v') :: GoMap.set rest k v

/-- The keys of a map, in the order of its entries. -/
def GoMap.keys (m : GoMap) : List String := m.map Prod.fst

/-! ## Document schema (the fields the generator reads or writes) -/

/-- Go type `corev1.Container`. -/
structure Container where
  name : String
  image : String
  command : List String
  args : List String
deriving DecidableEq, Repr

/-- Go type `corev1.PodSpec`. -/
structure PodSpec where
  containers : List Container
  serviceAccountName : String
deriving DecidableEq, Repr

/-- Go type `corev1.PodTemplateSpec`. -/
structure PodTemplateSpec where
  labels : List (String × String)
  spec : PodSpec
deriving DecidableEq, Repr

/-- Go type `appsv1.DeploymentSpec`. -/
structure DeploymentSpec where
  replicas : Nat
  template : PodTemplateSpec
deriving DecidableEq, Repr

/-- One entry of the `deployments` list of the install strategy. -/
structure StrategyDeployment where
  name : String
  spec : DeploymentSpec
deriving DecidableEq, Repr

/-- One entry of the `permissions` / `clusterPermissions` lists. -/
structure StrategyPermissions where
  serviceAccountName : String
  rules : List String
deriving DecidableEq, Repr

/-- The install-strategy sub-document returned by
`csvtools.UnmarshalStrategySpec`. -/
structure StrategySpec where
  clusterPermissions : List StrategyPermissions
  deployments : List StrategyDeployment
  permissions : List StrategyPermissions
deriving DecidableEq, Repr

/-- Go type `semver.Version`. -/
structure SemVersion where
  major : Nat
  minor : Nat
  patch : Nat
  pre : List String
  build : List String
deriving DecidableEq, Repr

/-- Go type `version.OperatorVersion`. -/
structure OperatorVersion where
  version : SemVersion
deriving DecidableEq, Repr

/-- Go type `csvv1.CRDDescription`. -/
structure CRDDescription where
  name : String
  version : String
  kind : String
  displayName : String
  description : String
deriving DecidableEq, Repr

/-- Go type `csvv1.CustomResourceDefinitions`. -/
structure CustomResourceDefinitions where
  owned : List CRDDescription
  required : List CRDDescription
deriving DecidableEq, Repr

/-- Go type `csvv1.AppLink`. -/
structure AppLink where
  name : String
  url : String
deriving DecidableEq, Repr

/-- Go type `csvv1.Maintainer`. -/
structure Maintainer where
  name : String
  email : String
deriving DecidableEq, Repr

/-- Go type `csvv1.NamedInstallStrategy`; the payload is the serialized
sub-document. -/
structure NamedInstallStrategy where
  strategyName : String
  strategySpecRaw : String
deriving DecidableEq, Repr

/-- Go type `csvv1.ClusterServiceVersionSpec`. -/
structure ClusterServiceVersionSpec where
  installStrategy : NamedInstallStrategy
  version : OperatorVersion
  maturity : String
  customResourceDefinitions : CustomResourceDefinitions
  displayName : String
  description : String
  keywords : List String
  maintainers : List Maintainer
  provider : AppLink
  links : List AppLink
  replaces : String
deriving DecidableEq, Repr

/-- Go type `csvv1.ClusterServiceVersion`; `name` and `annotations` are the two
promoted `ObjectMeta` fields the generator touches. -/
structure ClusterServiceVersion where
  name : String
  annotations : Option GoMap
  spec : ClusterServiceVersionSpec
deriving DecidableEq, Repr

/-! ## Program state, panics and effects -/

/-- The package-level flag variables after `flag.Parse()`. -/
structure Flags where
  csvVersion : String
  replacesCsvVersion : String
  skipRange : String
  operatorCSVTemplate : String
  operatorImage : String
  inputManifestsDir : String
  outputDir : String
  annotationsFile : String
  maintainersFile : String
deriving DecidableEq, Repr

/-- The value a Go panic carries. -/
inductive Panic where
  /-- Call `panic(err)` with an `error` whose message is `msg`. -/
  | err (msg : String)
  /-- Run-time panic of an index expression `s[index]` on a slice of the
  given length. -/
  | indexOutOfRange (index length : Nat)
  /-- Run-time panic "assignment to entry in nil map". -/
  | nilMapAssignment
deriving DecidableEq, Repr

/-- The observable actions of the program. -/
inductive Effect where
  | removeAll (path : String)
  | mkdirAll (path : String) (mode : Nat)
  | writeFile (path : String) (data : String) (mode : Nat)
  | print (text : String)
deriving DecidableEq, Repr

/-- The library calls the generator makes.  Each field is the result the
call gives when the program makes it. -/
structure Env where
  /-- Call `csvtools.UnmarshalCSV(path)`: read and parse the template. -/
  unmarshalCSV : String → Except Panic ClusterServiceVersion
  /-- Call `csvtools.UnmarshalStrategySpec(csv)`: decode the install-strategy
  payload of the document. -/
  unmarshalStrategySpec : ClusterServiceVersion → Except Panic StrategySpec
  /-- Call `json.Marshal(strategySpec)`. -/
  jsonMarshal : StrategySpec → Except String String
  /-- Call `csvtools.MarshallObject(csv, &writer)`: the text left in the writer. -/
  marshallObject : ClusterServiceVersion → Except Panic String
  /-- Call `filepath.Join(dir, file)`. -/
  filepathJoin : String → String → String
  /-- Call `ioutil.WriteFile(path, data, mode)`: `none` when it succeeds, the
  error otherwise. -/
  writeFile : String → String → Nat → Option String
  /-- Call `semver.New(s)`. -/
  semverNew : String → Except String SemVersion
  /-- Call `ioutil.ReadFile(path)`. -/
  readFile : String → Except String String
  /-- Call `json.Unmarshal(data, &kvMap)` into a fresh `map[string]string`. -/
  jsonUnmarshalMap : String → Except String GoMap

/-- What a call leaves behind: its result (or the panic that ended it) and
the effects it performed up to that point. -/
structure Run (α : Type) where
  result : Except Panic α
  effects : List Effect

/-! ## The program -/

/-- Function `finalizedCsvFilename` (lines 40-42). -/
def finalizedCsvFilename (flags : Flags) : String :=
  "performance-addon-operator.v" ++ flags.csvVersion ++ ".clusterserviceversion.yaml"

/-- Line 74, the assignment
`strategySpec.Deployments[0].Spec.Template.Spec.Containers[0].Image = image`:
both index expressions are bounds-checked by the run time. -/
def setOperatorImage (strategySpec : StrategySpec) (image : String) :
    Except Panic StrategySpec :=
  match strategySpec.deployments with
  | [] => .error (.indexOutOfRange 0 0)
  | d :: ds =>
    match d.spec.template.spec.containers with
    | [] => .error (.indexOutOfRange 0 0)
    | c :: cs =>
      .ok { strategySpec with
            deployments :=
              { d with spec := { d.spec with template := { d.spec.template with
                  spec := { d.spec.template.spec with
                    containers := { c with image := image } :: cs } } } } :: ds }

/-- Lines 77-82, the body of the loop over the owned CRD descriptors. -/
def injectDisplayName (definition : CRDDescription) : CRDDescription :=
  if definition.name = "performanceprofiles.performance.openshift.io" then
    { definition with displayName := "Performance Profile" }
  else definition

/-- Lines 92-94, `for key, value := range extraAnnotations`, visiting the
entries in the order given. -/
def mergeAnnotations (annotations : GoMap) (extraAnnotations : GoMap) : GoMap :=
  extraAnnotations.foldl (fun acc kv => GoMap.set acc kv.1 kv.2) annotations

/-- Lines 136-143: nothing for a nil map, otherwise one `append` per entry, in
the order the entries are visited. -/
def appendMaintainers (current : List Maintainer) : Option GoMap → List Maintainer
  | none => current
  | some maintainers =>
    maintainers.foldl (fun acc kv => acc ++ [{ name := kv.1, email := kv.2 }]) current

/-- Lines 146-148. -/
def setSkipRange (annotations : GoMap) (skipRange : String) : GoMap :=
  if skipRange ≠ "" then GoMap.set annotations "olm.skipRange" skipRange else annotations

/-- Lines 65-148 of `generateUnifiedCSV`: everything up to, and not
including, the serialization and write of the document.  The result is the
document `operatorCSV` as it stands at line 148.  `semverVersion` is the
package variable of that name, which `main` has set when this code runs.  The
map `operatorCSV.Annotations` is non-nil from line 91 on; it is held in
`annotations` and stored back into the document at the end. -/
def composeCSV (env : Env) (flags : Flags) (semverVersion : SemVersion)
    (extraAnnotations : GoMap) (maintainers : Option GoMap) :
    Except Panic ClusterServiceVersion :=
  match env.unmarshalCSV flags.operatorCSVTemplate with
  | .error p => .error p
  | .ok operatorCSV =>
  match env.unmarshalStrategySpec operatorCSV with
  | .error p => .error p
  | .ok strategySpec =>
  if strategySpec.deployments.length ≠ 1 then
    .error (.err ("expected 1 deployment, found " ++
      toString strategySpec.deployments.length))
  else
  match setOperatorImage strategySpec flags.operatorImage with
  | .error p => .error p
  | .ok strategySpec =>
  let operatorCSV := { operatorCSV with
    spec.customResourceDefinitions.owned :=
      operatorCSV.spec.customResourceDefinitions.owned.map injectDisplayName }
  match env.jsonMarshal strategySpec with
  | .error e => .error (.err e)
  | .ok updatedStrat =>
  let operatorCSV := { operatorCSV with spec.installStrategy.strategySpecRaw := updatedStrat }
  match operatorCSV.annotations with
  | none => .error .nilMapAssignment
  | some annotations =>
  let annotations := GoMap.set annotations "containerImage" flags.operatorImage
  let annotations := mergeAnnotations annotations extraAnnotations
  let operatorCSV := { operatorCSV with
    spec.version := { version := semverVersion }
    name := "performance-addon-operator.v" ++ flags.csvVersion
    spec.replaces :=
      if flags.replacesCsvVersion ≠ "" then
        "performance-addon-operator.v" ++ flags.replacesCsvVersion
      else "" }
  let operatorCSV := { operatorCSV with
    spec.maturity := "alpha"
    spec.links :=
      [{ name := "Source Code"
         url := "https://github.com/openshift-kni/performance-addon-operators" }]
    spec.keywords := ["numa", "realtime", "cpu pinning", "hugepages"]
    spec.provider := { name := "Red Hat", url := "" }
    spec.description := "\nPerformance Addon Operator provides the ability to enable advanced node performance tunings on a set of nodes."
    spec.displayName := "Performance Addon Operator" }
  let operatorCSV := { operatorCSV with
    spec.maintainers := appendMaintainers operatorCSV.spec.maintainers maintainers }
  let annotations := setSkipRange annotations flags.skipRange
  .ok { operatorCSV with annotations := some annotations }

/-- Function `generateUnifiedCSV` (lines 63-160).  On normal return the result is the
document that was serialized and written. -/
def generateUnifiedCSV (env : Env) (flags : Flags) (semverVersion : SemVersion)
    (extraAnnotations : GoMap) (maintainers : Option GoMap) :
    Run ClusterServiceVersion :=
  match composeCSV env flags semverVersion extraAnnotations maintainers with
  | .error p => { result := .error p, effects := [] }
  | .ok operatorCSV =>
  match env.marshallObject operatorCSV with
  | .error p => { result := .error p, effects := [] }
  | .ok text =>
  let outputFilename := env.filepathJoin flags.outputDir (finalizedCsvFilename flags)
  match env.writeFile outputFilename text 0o644 with
  | some e =>
    { result := .error (.err e), effects := [.writeFile outputFilename text 0o644] }
  | none =>
    { result := .ok operatorCSV
      effects := [.writeFile outputFilename text 0o644,
                  .print ("CSV written to " ++ outputFilename ++ "\n")] }

/-- Function `readKeyValueMapFromFileOrPanic` (lines 162-173). -/
def readKeyValueMapFromFileOrPanic (env : Env) (filename : String) : Except Panic GoMap :=
  match env.readFile filename with
  | .error e => .error (.err e)
  | .ok data =>
  match env.jsonUnmarshalMap data with
  | .error e => .error (.err e)
  | .ok kvMap => .ok kvMap

/-- How the process ends. -/
inductive Exit where
  /-- Normal return of `main`: exit status 0. -/
  | success
  /-- Call `log.Fatal(msg)`: the message is logged and the process exits with
  status 1. -/
  | fatal (msg : String)
  /-- An unrecovered panic. -/
  | panicked (p : Panic)
deriving DecidableEq, Repr

/-- What a run of the program leaves behind. -/
structure ProcessRun where
  exit : Exit
  effects : List Effect
deriving DecidableEq, Repr

/-- Function `main` (lines 175-212), started with the parsed flags. -/
def main (env : Env) (flags : Flags) : ProcessRun :=
  if flags.csvVersion = "" then
    { exit := .fatal "--csv-version is required", effects := [] }
  else if flags.operatorCSVTemplate = "" then
    { exit := .fatal "--operator-csv-template-file is required", effects := [] }
  else if flags.operatorImage = "" then
    { exit := .fatal "--operator-image is required", effects := [] }
  else if flags.outputDir = "" then
    { exit := .fatal "--olm-bundle-directory is required", effects := [] }
  else
  match env.semverNew flags.csvVersion with
  | .error e => { exit := .panicked (.err e), effects := [] }
  | .ok semverVersion =>
  match (if flags.annotationsFile ≠ "" then
           readKeyValueMapFromFileOrPanic env flags.annotationsFile
         else .ok []) with
  | .error p => { exit := .panicked p, effects := [] }
  | .ok extraAnnotations =>
  match (if flags.maintainersFile ≠ "" then
           readKeyValueMapFromFileOrPanic env flags.maintainersFile
         else .ok []) with
  | .error p => { exit := .panicked p, effects := [] }
  | .ok maintainers =>
  let prepared : List Effect := [.removeAll flags.outputDir, .mkdirAll flags.outputDir 0o775]
  let run := generateUnifiedCSV env flags semverVersion extraAnnotations (some maintainers)
  match run.result with
  | .error p => { exit := .panicked p, effects := prepared ++ run.effects }
  | .ok _ => { exit := .success, effects := prepared ++ run.effects }

/-! ## A concrete environment

A small template and stand-ins for the library calls, used to run the
program on concrete inputs. -/

/-- The container of the sample deployment. -/
def sampleContainer : Container :=
  { name := "performance-operator"
    image := "REPLACE_IMAGE"
    command := ["performance-operator"]
    args := [] }

/-- The deployment of the sample sub-document. -/
def sampleDeployment : StrategyDeployment :=
  { name := "performance-operator"
    spec :=
      { replicas := 1
        template :=
          { labels := [("name", "performance-operator")]
            spec :=
              { containers := [sampleContainer]
                serviceAccountName := "performance-operator" } } } }

/-- A template sub-document with one deployment of one container. -/
def sampleStrategy : StrategySpec :=
  { clusterPermissions := [{ serviceAccountName := "performance-operator", rules := ["nodes"] }]
    deployments := [sampleDeployment]
    permissions := [] }

/-- A stand-in for the JSON encoding of a sub-document: the deployment names,
each followed by the images of its containers. -/
def renderStrategy (s : StrategySpec) : String :=
  String.intercalate ";" (s.deployments.map fun d =>
    d.name ++ "=" ++ String.intercalate "," (d.spec.template.spec.containers.map (·.image)))

/-- A template document. -/
def sampleTemplate : ClusterServiceVersion :=
  { name := "performance-addon-operator.v0.0.1"
    annotations := some [("capabilities", "Basic Install"), ("olm.skipRange", ">=4.1.0 <4.2.0")]
    spec :=
      { installStrategy :=
          { strategyName := "deployment", strategySpecRaw := renderStrategy sampleStrategy }
        version := { version := ⟨0, 0, 1, [], []⟩ }
        maturity := "beta"
        customResourceDefinitions :=
          { owned :=
              [{ name := "performanceprofiles.performance.openshift.io", version := "v1alpha1"
                 kind := "PerformanceProfile", displayName := "", description := "profile" },
               { name := "others.performance.openshift.io", version := "v1"
                 kind := "Other", displayName := "Other", description := "other" }]
            required := [] }
        displayName := "template"
        description := "template"
        keywords := []
        maintainers := [{ name := "upstream", email := "upstream@example.com" }]
        provider := { name := "", url := "" }
        links := []
        replaces := "performance-addon-operator.v0.0.0" } }

/-- The sample environment, serving the given template document and
sub-document at the path `template.yaml`. -/
def sampleEnvWith (template : ClusterServiceVersion) (strategy : StrategySpec) : Env :=
  { unmarshalCSV := fun path =>
      if path = "template.yaml" then .ok template
      else .error (.err ("open " ++ path ++ ": no such file or directory"))
    unmarshalStrategySpec := fun _ => .ok strategy
    jsonMarshal := fun s => .ok (renderStrategy s)
    marshallObject := fun csv => .ok ("name: " ++ csv.name ++ "\n")
    filepathJoin := fun dir file => dir ++ "/" ++ file
    writeFile := fun _ _ _ => none
    semverNew := fun s =>
      if s = "4.2.0" then .ok ⟨4, 2, 0, [], []⟩
      else .error "No Major.Minor.Patch elements found"
    readFile := fun path =>
      if path = "annotations.json" then .ok "annotations"
      else if path = "maintainers.json" then .ok "maintainers"
      else .error ("open " ++ path ++ ": no such file or directory")
    jsonUnmarshalMap := fun data =>
      if data = "annotations" then .ok [("containerImage", "quay.io/mirror/operator:4.2.0")]
      else if data = "maintainers" then .ok [("alice", "alice@example.com")]
      else .error "unexpected end of JSON input" }

/-- The sample environment with the sample template. -/
def sampleEnv : Env := sampleEnvWith sampleTemplate sampleStrategy

/-- The flags of the worked example of the specification. -/
def sampleFlags : Flags :=
  { csvVersion := "4.2.0"
    replacesCsvVersion := ""
    skipRange := ""
    operatorCSVTemplate := "template.yaml"
    operatorImage := "quay.io/example/operator:4.2.0"
    inputManifestsDir := ""
    outputDir := "out"
    annotationsFile := ""
    maintainersFile := "" }

/-- The parsed form of the version string `4.2.0`. -/
def sampleVersion : SemVersion := ⟨4, 2, 0, [], []⟩

/-- Flags that also name a replaced version and a skip range. -/
def fullFlags : Flags :=
  { sampleFlags with
    replacesCsvVersion := "4.1.0"
    skipRange := ">=4.1.0 <4.2.0" }

/-- An annotations overlay that collides with the template on
`olm.skipRange` and with the generator on `containerImage`. -/
def sampleAnnotations : GoMap :=
  [("containerImage", "quay.io/mirror/operator:4.2.0"), ("olm.skipRange", ">=4.0.0 <4.2.0"),
   ("categories", "OpenShift Optional")]

/-- A maintainers overlay. -/
def sampleMaintainers : GoMap :=
  [("alice", "alice@example.com"), ("bob", "bob@example.com")]

/-- A sub-document whose only deployment has no container. -/
def noContainerStrategy : StrategySpec :=
  { clusterPermissions := []
    deployments :=
      [{ name := "performance-operator"
         spec :=
           { replicas := 1
             template :=
               { labels := []
                 spec := { containers := [], serviceAccountName := "performance-operator" } } } }]
    permissions := [] }

/-- A sub-document with two deployments. -/
def twoDeploymentStrategy : StrategySpec :=
  { sampleStrategy with deployments := [sampleDeployment, sampleDeployment] }

/-- The document the sample run with `fullFlags`, `sampleAnnotations` and
`sampleMaintainers` ends with. -/
def fullOutput : ClusterServiceVersion :=
  { name := "performance-addon-operator.v4.2.0"
    annotations := some
      [("capabilities", "Basic Install"), ("olm.skipRange", ">=4.1.0 <4.2.0"),
       ("containerImage", "quay.io/mirror/operator:4.2.0"),
       ("categories", "OpenShift Optional")]
    spec :=
      { installStrategy :=
          { strategyName := "deployment"
            strategySpecRaw := "performance-operator=quay.io/example/operator:4.2.0" }
        version := { version := sampleVersion }
        maturity := "alpha"
        customResourceDefinitions :=
          { owned :=
              [{ name := "performanceprofiles.performance.openshift.io", version := "v1alpha1"
                 kind := "PerformanceProfile", displayName := "Performance Profile"
                 description := "profile" },
               { name := "others.performance.openshift.io", version := "v1"
                 kind := "Other", displayName := "Other", description := "other" }]
            required := [] }
        displayName := "Performance Addon Operator"
        description := "\nPerformance Addon Operator provides the ability to enable advanced node performance tunings on a set of nodes."
        keywords := ["numa", "realtime", "cpu pinning", "hugepages"]
        maintainers :=
          [{ name := "upstream", email := "upstream@example.com" },
           { name := "alice", email := "alice@example.com" },
           { name := "bob", email := "bob@example.com" }]
        provider := { name := "Red Hat", url := "" }
        links := [{ name := "Source Code"
                    url := "https://github.com/openshift-kni/performance-addon-operators" }]
        replaces := "performance-addon-operator.v4.1.0" } }

/-- The document the same run ends with under `sampleFlags`, which name
neither a replaced version nor a skip range. -/
def plainOutput : ClusterServiceVersion :=
  { fullOutput with
    annotations := some
      [("capabilities", "Basic Install"), ("olm.skipRange", ">=4.0.0 <4.2.0"),
       ("containerImage", "quay.io/mirror/operator:4.2.0"),
       ("categories", "OpenShift Optional")]
    spec.replaces := "" }

/-- The sample template without an annotations map. -/
def nilAnnotationsTemplate : ClusterServiceVersion :=
  { sampleTemplate with annotations := none }

/-! ## Lemmas on maps -/

theorem GoMap.get_set_self (m : GoMap) (k v : String) :
    GoMap.get (GoMap.set m k v) k = some v := by
  induction m with
  | nil => simp [GoMap.set, GoMap.get]
  | cons kv rest ih =>
    obtain ⟨k', v'⟩ := kv
    by_cases hk : k' = k
    · simp [GoMap.set, GoMap.get, hk]
    · simp [GoMap.set, GoMap.get, hk, ih]

theorem GoMap.get_set_of_ne (m : GoMap) {k k' : String} (v : String) (hne : k' ≠ k) :
    GoMap.get (GoMap.set m k v) k' = GoMap.get m k' := by
  induction m with
  | nil => simp [GoMap.set, GoMap.get, Ne.symm hne]
  | cons kv rest ih =>
    obtain ⟨k₀, v₀⟩ := kv
    by_cases hk : k₀ = k
    · subst hk
      simp [GoMap.set, GoMap.get, Ne.symm hne]
    · by_cases hk' : k₀ = k'
      · subst hk'
        simp [GoMap.set, GoMap.get, hk]
      · simp [GoMap.set, GoMap.get, hk, hk', ih]

theorem GoMap.get_eq_none_of_not_mem_keys {m : GoMap} {k : String}
    (h : k ∉ GoMap.keys m) : GoMap.get m k = none := by
  induction m with
  | nil => rfl
  | cons kv rest ih =>
    obtain ⟨k₀, v₀⟩ := kv
    simp only [GoMap.keys, List.map_cons, List.mem_cons, not_or] at h
    have hne : ¬ k₀ = k := fun e => h.1 e.symm
    simp only [GoMap.get, hne, if_false]
    exact ih h.2

theorem GoMap.mem_keys_of_get {m : GoMap} {k v : String}
    (h : GoMap.get m k = some v) : k ∈ GoMap.keys m := by
  by_contra hk
  rw [GoMap.get_eq_none_of_not_mem_keys hk] at h
  exact Option.noConfusion h

/-- With distinct keys, a read finds exactly the entries of the map. -/
theorem GoMap.get_eq_some_iff {m : GoMap} (hnd : (GoMap.keys m).Nodup) (k v : String) :
    GoMap.get m k = some v ↔ (k, v) ∈ m := by
  induction m with
  | nil => simp [GoMap.get]
  | cons kv rest ih =>
    obtain ⟨k₀, v₀⟩ := kv
    simp only [GoMap.keys, List.map_cons, List.nodup_cons] at hnd
    by_cases hk : k₀ = k
    · subst hk
      simp only [GoMap.get, if_true, Option.some.injEq, List.mem_cons, Prod.mk.injEq,
        true_and]
      constructor
      · intro h; exact Or.inl h.symm
      · rintro (h | h)
        · exact h.symm
        · exact absurd (List.mem_map_of_mem Prod.fst h) hnd.1
    · simp only [GoMap.get, hk, if_false, List.mem_cons, Prod.mk.injEq]
      rw [ih hnd.2]
      constructor
      · intro h; exact Or.inr h
      · rintro (h | h)
        · exact absurd h.1.symm hk
        · exact h

/-- Two enumerations of one map answer every read alike. -/
theorem GoMap.get_of_perm {m₁ m₂ : GoMap} (hp : m₁.Perm m₂) (hnd : (GoMap.keys m₁).Nodup)
    (k : String) : GoMap.get m₁ k = GoMap.get m₂ k := by
  have hnd₂ : (GoMap.keys m₂).Nodup := (hp.map Prod.fst).nodup_iff.mp hnd
  cases h₁ : GoMap.get m₁ k with
  | some v =>
    have hmem : (k, v) ∈ m₂ := hp.mem_iff.mp ((GoMap.get_eq_some_iff hnd k v).mp h₁)
    exact ((GoMap.get_eq_some_iff hnd₂ k v).mpr hmem).symm
  | none =>
    cases h₂ : GoMap.get m₂ k with
    | none => rfl
    | some v =>
      have hmem : (k, v) ∈ m₁ := hp.mem_iff.mpr ((GoMap.get_eq_some_iff hnd₂ k v).mp h₂)
      rw [(GoMap.get_eq_some_iff hnd k v).mpr hmem] at h₁
      exact Option.noConfusion h₁

/-- After the merge loop a key of the overlay reads the overlay's value, any
other key reads what it read before. -/
theorem get_mergeAnnotations (annotations extraAnnotations : GoMap)
    (hnd : (GoMap.keys extraAnnotations).Nodup) (k : String) :
    GoMap.get (mergeAnnotations annotations extraAnnotations) k =
      match GoMap.get extraAnnotations k with
      | some v => some v
      | none => GoMap.get annotations k := by
  induction extraAnnotations generalizing annotations with
  | nil => simp [mergeAnnotations, GoMap.get]
  | cons kv rest ih =>
    obtain ⟨k₀, v₀⟩ := kv
    simp only [GoMap.keys, List.map_cons, List.nodup_cons] at hnd
    have hstep : mergeAnnotations annotations ((k₀, v₀) :: rest) =
        mergeAnnotations (GoMap.set annotations k₀ v₀) rest := by
      simp [mergeAnnotations]
    rw [hstep, ih _ hnd.2]
    by_cases hk : k₀ = k
    · subst hk
      have hnone : GoMap.get rest k₀ = none := GoMap.get_eq_none_of_not_mem_keys hnd.1
      simp [GoMap.get, hnone, GoMap.get_set_self]
    · have hne : k ≠ k₀ := fun e => hk e.symm
      simp only [GoMap.get, hk, if_false, GoMap.get_set_of_ne _ _ hne]

theorem get_setSkipRange (annotations : GoMap) (skipRange k : String) :
    GoMap.get (setSkipRange annotations skipRange) k =
      if skipRange ≠ "" ∧ k = "olm.skipRange" then some skipRange
      else GoMap.get annotations k := by
  unfold setSkipRange
  by_cases hs : skipRange = ""
  · simp [hs]
  · by_cases hk : k = "olm.skipRange"
    · subst hk
      simp [hs, GoMap.get_set_self]
    · simp [hs, hk, GoMap.get_set_of_ne _ _ hk]

/-- The append loop adds one entry per overlay pair, in the order visited. -/
theorem appendMaintainers_some (current : List Maintainer) (maintainers : GoMap) :
    appendMaintainers current (some maintainers) =
      current ++ maintainers.map (fun kv => ({ name := kv.1, email := kv.2 } : Maintainer)) := by
  show List.foldl _ current maintainers = _
  induction maintainers generalizing current with
  | nil => simp
  | cons kv rest ih => rw [List.foldl_cons, ih]; simp

/-! ## The shape of a successful composition -/

/-- Line 74 succeeds exactly on a first deployment with a first container, and
then changes that container's image and nothing else. -/
theorem setOperatorImage_eq_ok_iff (S S' : StrategySpec) (image : String) :
    setOperatorImage S image = .ok S' ↔
      ∃ d ds c cs, S.deployments = d :: ds ∧ d.spec.template.spec.containers = c :: cs ∧
        S' = { S with
          deployments :=
            { d with spec := { d.spec with template := { d.spec.template with
                spec := { d.spec.template.spec with
                  containers := { c with image := image } :: cs } } } } :: ds } := by
  unfold setOperatorImage
  constructor
  · intro h
    split at h
    · cases h
    · rename_i d ds hd
      split at h
      · cases h
      · rename_i c cs hc
        refine ⟨d, ds, c, cs, hd, hc, ?_⟩
        injection h with h
        exact h.symm
  · rintro ⟨d, ds, c, cs, hd, hc, rfl⟩
    simp [hd, hc]

/-- What `composeCSV` returns when it returns: the template with each field
set as lines 74-148 set it. -/
theorem composeCSV_eq_ok_iff (env : Env) (flags : Flags) (semverVersion : SemVersion)
    (extraAnnotations : GoMap) (maintainers : Option GoMap) (out : ClusterServiceVersion) :
    composeCSV env flags semverVersion extraAnnotations maintainers = .ok out ↔
      ∃ T S S' raw ann,
        env.unmarshalCSV flags.operatorCSVTemplate = .ok T ∧
        env.unmarshalStrategySpec T = .ok S ∧
        S.deployments.length = 1 ∧
        setOperatorImage S flags.operatorImage = .ok S' ∧
        env.jsonMarshal S' = .ok raw ∧
        T.annotations = some ann ∧
        out =
          { name := "performance-addon-operator.v" ++ flags.csvVersion
            annotations := some (setSkipRange
              (mergeAnnotations (GoMap.set ann "containerImage" flags.operatorImage)
                extraAnnotations) flags.skipRange)
            spec :=
              { installStrategy :=
                  { strategyName := T.spec.installStrategy.strategyName
                    strategySpecRaw := raw }
                version := { version := semverVersion }
                maturity := "alpha"
                customResourceDefinitions :=
                  { owned := T.spec.customResourceDefinitions.owned.map injectDisplayName
                    required := T.spec.customResourceDefinitions.required }
                displayName := "Performance Addon Operator"
                description := "\nPerformance Addon Operator provides the ability to enable advanced node performance tunings on a set of nodes."
                keywords := ["numa", "realtime", "cpu pinning", "hugepages"]
                maintainers := appendMaintainers T.spec.maintainers maintainers
                provider := { name := "Red Hat", url := "" }
                links := [{ name := "Source Code"
                            url := "https://github.com/openshift-kni/performance-addon-operators" }]
                replaces :=
                  if flags.replacesCsvVersion ≠ "" then
                    "performance-addon-operator.v" ++ flags.replacesCsvVersion
                  else "" } } := by
  unfold composeCSV
  constructor
  · intro h
    split at h
    · cases h
    · rename_i T hT
      split at h
      · cases h
      · rename_i S hS
        split at h
        · cases h
        · rename_i hlen
          split at h
          · cases h
          · rename_i S' hS'
            split at h
            · cases h
            · rename_i raw hraw
              dsimp only at h
              split at h
              · cases h
              · rename_i ann hann
                injection h with h
                exact ⟨T, S, S', raw, ann, hT, hS, not_not.mp hlen, hS', hraw, hann, h.symm⟩
  · rintro ⟨T, S, S', raw, ann, hT, hS, hlen, hS', hraw, hann, rfl⟩
    simp [hT, hS, hlen, hS', hraw, hann]

/-- A run of `generateUnifiedCSV` returns a document only when the in-memory part
produced that document. -/
theorem composeCSV_of_generateUnifiedCSV {env : Env} {flags : Flags}
    {semverVersion : SemVersion} {extraAnnotations : GoMap} {maintainers : Option GoMap}
    {out : ClusterServiceVersion}
    (h : (generateUnifiedCSV env flags semverVersion extraAnnotations maintainers).result =
      .ok out) :
    composeCSV env flags semverVersion extraAnnotations maintainers = .ok out := by
  unfold generateUnifiedCSV at h
  split at h
  · cases h
  · rename_i doc hdoc
    split at h
    · cases h
    · dsimp only at h
      split at h
      · cases h
      · injection h with h
        rw [hdoc, h]

/-- When the in-memory part stops, nothing has been written or printed. -/
theorem generateUnifiedCSV_of_composeCSV_error {env : Env} {flags : Flags}
    {semverVersion : SemVersion} {extraAnnotations : GoMap} {maintainers : Option GoMap}
    {p : Panic}
    (h : composeCSV env flags semverVersion extraAnnotations maintainers = .error p) :
    (generateUnifiedCSV env flags semverVersion extraAnnotations maintainers).result = .error p ∧
      (generateUnifiedCSV env flags semverVersion extraAnnotations maintainers).effects = [] := by
  unfold generateUnifiedCSV
  rw [h]
  exact ⟨rfl, rfl⟩

/-- When the in-memory part, the serialization and the write all succeed,
`generateUnifiedCSV` returns the composed document. -/
theorem generateUnifiedCSV_of_composeCSV_ok {env : Env} {flags : Flags}
    {semverVersion : SemVersion} {extraAnnotations : GoMap} {maintainers : Option GoMap}
    {out : ClusterServiceVersion}
    (h : composeCSV env flags semverVersion extraAnnotations maintainers = .ok out)
    (hM : ∀ doc, ∃ text, env.marshallObject doc = .ok text)
    (hW : ∀ path data mode, env.writeFile path data mode = none) :
    (generateUnifiedCSV env flags semverVersion extraAnnotations maintainers).result = .ok out := by
  obtain ⟨text, htext⟩ := hM out
  unfold generateUnifiedCSV
  rw [h]
  simp only [htext, hW]

/-- The check of lines 70-72: any deployment count other than one stops the
in-memory part with the count in the message. -/
theorem composeCSV_deployment_count {env : Env} {flags : Flags}
    (semverVersion : SemVersion) (extraAnnotations : GoMap) (maintainers : Option GoMap)
    {T : ClusterServiceVersion} {S : StrategySpec}
    (hT : env.unmarshalCSV flags.operatorCSVTemplate = .ok T)
    (hS : env.unmarshalStrategySpec T = .ok S)
    (hn : S.deployments.length ≠ 1) :
    composeCSV env flags semverVersion extraAnnotations maintainers =
      .error (.err ("expected 1 deployment, found " ++ toString S.deployments.length)) := by
  unfold composeCSV
  simp only [hT, hS, hn, ne_eq, not_false_eq_true, if_true]

/-! ## The claims -/

/-- C1, as the code has it: for every version string (valid or not), image,
pair of overlays and template that loads with a non-nil annotations map and a
sub-document of exactly one deployment with at least one container, when
serialization and the file write succeed, `generateUnifiedCSV` returns a
document named `performance-addon-operator.v` followed by the version string,
whose install-strategy payload is the serialization of the template's
sub-document with the image of the first container of that deployment
replaced by the image flag and nothing else changed. -/
theorem generateUnifiedCSV_image_and_name (env : Env) (flags : Flags)
    (semverVersion : SemVersion) (extraAnnotations : GoMap) (maintainers : Option GoMap)
    (T : ClusterServiceVersion) (S : StrategySpec) (d : StrategyDeployment)
    (c : Container) (cs : List Container) (ann : GoMap)
    (hT : env.unmarshalCSV flags.operatorCSVTemplate = .ok T)
    (hS : env.unmarshalStrategySpec T = .ok S)
    (hd : S.deployments = [d])
    (hc : d.spec.template.spec.containers = c :: cs)
    (ha : T.annotations = some ann)
    (hJ : ∀ s, ∃ raw, env.jsonMarshal s = .ok raw)
    (hM : ∀ doc, ∃ text, env.marshallObject doc = .ok text)
    (hW : ∀ path data mode, env.writeFile path data mode = none) :
    ∃ out,
      (generateUnifiedCSV env flags semverVersion extraAnnotations maintainers).result =
        .ok out ∧
      out.name = "performance-addon-operator.v" ++ flags.csvVersion ∧
      env.jsonMarshal
        { S with
          deployments :=
            [{ d with spec := { d.spec with template := { d.spec.template with
                spec := { d.spec.template.spec with
                  containers := { c with image := flags.operatorImage } :: cs } } } }] } =
        .ok out.spec.installStrategy.strategySpecRaw := by
  obtain ⟨raw, hraw⟩ := hJ
    { S with
      deployments :=
        [{ d with spec := { d.spec with template := { d.spec.template with
            spec := { d.spec.template.spec with
              containers := { c with image := flags.operatorImage } :: cs } } } }] }
  have hlen : S.deployments.length = 1 := by rw [hd]; rfl
  have hset := (setOperatorImage_eq_ok_iff S _ flags.operatorImage).mpr
    ⟨d, [], c, cs, hd, hc, rfl⟩
  have hcomp := (composeCSV_eq_ok_iff env flags semverVersion extraAnnotations maintainers _).mpr
    ⟨T, S, _, raw, ann, hT, hS, hlen, hset, hraw, ha, rfl⟩
  exact ⟨_, generateUnifiedCSV_of_composeCSV_ok hcomp hM hW, rfl, hraw⟩

/-- C1 at the sample template: the amended statement applies, and the payload
of the returned document carries the image flag. -/
theorem generateUnifiedCSV_image_and_name_witness :
    sampleEnv.unmarshalCSV sampleFlags.operatorCSVTemplate = .ok sampleTemplate ∧
    sampleEnv.unmarshalStrategySpec sampleTemplate = .ok sampleStrategy ∧
    sampleStrategy.deployments = [sampleDeployment] ∧
    sampleDeployment.spec.template.spec.containers = sampleContainer :: [] ∧
    sampleTemplate.annotations =
      some [("capabilities", "Basic Install"), ("olm.skipRange", ">=4.1.0 <4.2.0")] ∧
    (∀ s, ∃ raw, sampleEnv.jsonMarshal s = .ok raw) ∧
    (∀ doc, ∃ text, sampleEnv.marshallObject doc = .ok text) ∧
    (∀ path data mode, sampleEnv.writeFile path data mode = none) ∧
    ∃ out,
      (generateUnifiedCSV sampleEnv sampleFlags sampleVersion sampleAnnotations
        (some sampleMaintainers)).result = .ok out ∧
      out.name = "performance-addon-operator.v" ++ sampleFlags.csvVersion ∧
      sampleEnv.jsonMarshal
        { sampleStrategy with
          deployments :=
            [{ sampleDeployment with spec := { sampleDeployment.spec with
                template := { sampleDeployment.spec.template with
                  spec := { sampleDeployment.spec.template.spec with
                    containers :=
                      { sampleContainer with image := sampleFlags.operatorImage } :: [] } } } }] } =
        .ok out.spec.installStrategy.strategySpecRaw :=
  ⟨rfl, rfl, rfl, rfl, rfl, fun _ => ⟨_, rfl⟩, fun _ => ⟨_, rfl⟩, fun _ _ _ => rfl,
    generateUnifiedCSV_image_and_name sampleEnv sampleFlags sampleVersion sampleAnnotations
      (some sampleMaintainers) sampleTemplate sampleStrategy sampleDeployment sampleContainer []
      _ rfl rfl rfl rfl rfl (fun _ => ⟨_, rfl⟩) (fun _ => ⟨_, rfl⟩) (fun _ _ _ => rfl)⟩

/-- C1 as stated fails: a template that loads, with a valid version string
and exactly one deployment, whose deployment has no container. The index
expression of line 74 panics and no document is produced. -/
theorem generateUnifiedCSV_no_container_counterexample :
    (sampleEnvWith sampleTemplate noContainerStrategy).semverNew sampleFlags.csvVersion =
      .ok sampleVersion ∧
    (sampleEnvWith sampleTemplate noContainerStrategy).unmarshalCSV
      sampleFlags.operatorCSVTemplate = .ok sampleTemplate ∧
    (sampleEnvWith sampleTemplate noContainerStrategy).unmarshalStrategySpec sampleTemplate =
      .ok noContainerStrategy ∧
    noContainerStrategy.deployments.length = 1 ∧
    (generateUnifiedCSV (sampleEnvWith sampleTemplate noContainerStrategy) sampleFlags
      sampleVersion [] (some [])).result = .error (.indexOutOfRange 0 0) ∧
    ¬ ∃ out,
      (generateUnifiedCSV (sampleEnvWith sampleTemplate noContainerStrategy) sampleFlags
        sampleVersion [] (some [])).result = .ok out :=
  ⟨rfl, rfl, rfl, rfl, rfl, fun ⟨_, h⟩ => Except.noConfusion h⟩

/-- C2: for a template whose sub-document has a number of deployments other
than one, `generateUnifiedCSV` panics with `expected 1 deployment, found n`
before it performs any effect, whatever the other inputs; and the whole
program, started with any flags in the same environment, does not end
successfully and performs no file write. -/
theorem generateUnifiedCSV_deployment_count (env : Env) (flags : Flags)
    (semverVersion : SemVersion) (extraAnnotations : GoMap) (maintainers : Option GoMap)
    (T : ClusterServiceVersion) (S : StrategySpec)
    (hT : env.unmarshalCSV flags.operatorCSVTemplate = .ok T)
    (hS : env.unmarshalStrategySpec T = .ok S)
    (hn : S.deployments.length ≠ 1) :
    (generateUnifiedCSV env flags semverVersion extraAnnotations maintainers).result =
      .error (.err ("expected 1 deployment, found " ++ toString S.deployments.length)) ∧
    (generateUnifiedCSV env flags semverVersion extraAnnotations maintainers).effects = [] ∧
    (main env flags).exit ≠ .success ∧
    ∀ path data mode, Effect.writeFile path data mode ∉ (main env flags).effects := by
  have hgen : ∀ sv A P,
      (generateUnifiedCSV env flags sv A P).result =
        .error (.err ("expected 1 deployment, found " ++ toString S.deployments.length)) ∧
      (generateUnifiedCSV env flags sv A P).effects = [] := fun sv A P =>
    generateUnifiedCSV_of_composeCSV_error (composeCSV_deployment_count sv A P hT hS hn)
  have hres := fun sv A P => (hgen sv A P).1
  have heff := fun sv A P => (hgen sv A P).2
  refine ⟨hres _ _ _, heff _ _ _, ?_⟩
  unfold main
  simp only [hres, heff]
  repeat' split
  all_goals exact ⟨fun h => Exit.noConfusion h, fun _ _ _ h => by simp at h⟩

/-- C2 at a template with two deployments: the message reads
`expected 1 deployment, found 2`. -/
theorem generateUnifiedCSV_deployment_count_witness :
    (sampleEnvWith sampleTemplate twoDeploymentStrategy).unmarshalCSV
      fullFlags.operatorCSVTemplate = .ok sampleTemplate ∧
    (sampleEnvWith sampleTemplate twoDeploymentStrategy).unmarshalStrategySpec sampleTemplate =
      .ok twoDeploymentStrategy ∧
    twoDeploymentStrategy.deployments.length ≠ 1 ∧
    (generateUnifiedCSV (sampleEnvWith sampleTemplate twoDeploymentStrategy) fullFlags
      sampleVersion sampleAnnotations (some sampleMaintainers)).result =
      .error (.err "expected 1 deployment, found 2") ∧
    (generateUnifiedCSV (sampleEnvWith sampleTemplate twoDeploymentStrategy) fullFlags
      sampleVersion sampleAnnotations (some sampleMaintainers)).effects = [] ∧
    (main (sampleEnvWith sampleTemplate twoDeploymentStrategy) fullFlags).exit ≠ .success ∧
    ∀ path data mode, Effect.writeFile path data mode ∉
      (main (sampleEnvWith sampleTemplate twoDeploymentStrategy) fullFlags).effects :=
  ⟨rfl, rfl, by decide,
    generateUnifiedCSV_deployment_count (sampleEnvWith sampleTemplate twoDeploymentStrategy)
      fullFlags sampleVersion sampleAnnotations (some sampleMaintainers) sampleTemplate
      twoDeploymentStrategy rfl rfl (by decide)⟩

/-- C3: in the document a successful run returns, `replaces` is empty when
the replaces-version flag is empty, and is `performance-addon-operator.v`
followed by the flag otherwise, whatever the template had there. -/
theorem generateUnifiedCSV_replaces (env : Env) (flags : Flags)
    (semverVersion : SemVersion) (extraAnnotations : GoMap) (maintainers : Option GoMap)
    (out : ClusterServiceVersion)
    (h : (generateUnifiedCSV env flags semverVersion extraAnnotations maintainers).result =
      .ok out) :
    (flags.replacesCsvVersion = "" → out.spec.replaces = "") ∧
    (flags.replacesCsvVersion ≠ "" →
      out.spec.replaces = "performance-addon-operator.v" ++ flags.replacesCsvVersion) := by
  obtain ⟨T, S, S', raw, ann, -, -, -, -, -, -, rfl⟩ :=
    (composeCSV_eq_ok_iff _ _ _ _ _ _).mp (composeCSV_of_generateUnifiedCSV h)
  constructor
  · intro he
    simp [he]
  · intro hne
    simp [hne]

/-- C3 on the sample template, whose own `replaces` is
`performance-addon-operator.v0.0.0`, with an empty flag. -/
theorem generateUnifiedCSV_replaces_witness :
    (generateUnifiedCSV sampleEnv sampleFlags sampleVersion sampleAnnotations
      (some sampleMaintainers)).result = .ok plainOutput ∧
    (sampleFlags.replacesCsvVersion = "" → plainOutput.spec.replaces = "") ∧
    (sampleFlags.replacesCsvVersion ≠ "" →
      plainOutput.spec.replaces =
        "performance-addon-operator.v" ++ sampleFlags.replacesCsvVersion) :=
  ⟨rfl, generateUnifiedCSV_replaces sampleEnv sampleFlags sampleVersion sampleAnnotations
    (some sampleMaintainers) plainOutput rfl⟩

/-- C4: in the document a successful run returns, the owned CRD descriptors
are as many as the template's and carry the same names in the same order; a
descriptor named `performanceprofiles.performance.openshift.io` has display
name `Performance Profile` (and is otherwise the template's), and a descriptor
of any other name is the template's descriptor at the same position. -/
theorem generateUnifiedCSV_owned_crds (env : Env) (flags : Flags)
    (semverVersion : SemVersion) (extraAnnotations : GoMap) (maintainers : Option GoMap)
    (T out : ClusterServiceVersion)
    (hT : env.unmarshalCSV flags.operatorCSVTemplate = .ok T)
    (h : (generateUnifiedCSV env flags semverVersion extraAnnotations maintainers).result =
      .ok out) :
    out.spec.customResourceDefinitions.owned.length =
      T.spec.customResourceDefinitions.owned.length ∧
    out.spec.customResourceDefinitions.owned.map (·.name) =
      T.spec.customResourceDefinitions.owned.map (·.name) ∧
    (∀ d ∈ out.spec.customResourceDefinitions.owned,
      d.name = "performanceprofiles.performance.openshift.io" →
        d.displayName = "Performance Profile") ∧
    ∀ (i : Nat) (d : CRDDescription), T.spec.customResourceDefinitions.owned[i]? = some d →
      (d.name = "performanceprofiles.performance.openshift.io" →
        out.spec.customResourceDefinitions.owned[i]? =
          some { d with displayName := "Performance Profile" }) ∧
      (d.name ≠ "performanceprofiles.performance.openshift.io" →
        out.spec.customResourceDefinitions.owned[i]? = some d) := by
  obtain ⟨T', S, S', raw, ann, hT', -, -, -, -, -, rfl⟩ :=
    (composeCSV_eq_ok_iff _ _ _ _ _ _).mp (composeCSV_of_generateUnifiedCSV h)
  rw [hT] at hT'
  injection hT' with hT'
  subst hT'
  have hname : ∀ d : CRDDescription, (injectDisplayName d).name = d.name := by
    intro d
    unfold injectDisplayName
    split <;> rfl
  refine ⟨by simp, ?_, ?_, ?_⟩
  · simp only [List.map_map]
    apply List.map_congr_left
    intro d _
    exact hname d
  · intro d hd hdn
    simp only [List.mem_map] at hd
    obtain ⟨d₀, -, rfl⟩ := hd
    rw [hname] at hdn
    simp [injectDisplayName, hdn]
  · intro i d hi
    simp only [List.getElem?_map, hi, Option.map_some']
    constructor
    · intro hdn
      simp [injectDisplayName, hdn]
    · intro hdn
      simp [injectDisplayName, hdn]

/-- C4 on the sample template, which owns one descriptor of the fixed name
and one of another name. -/
theorem generateUnifiedCSV_owned_crds_witness :
    sampleEnv.unmarshalCSV fullFlags.operatorCSVTemplate = .ok sampleTemplate ∧
    (generateUnifiedCSV sampleEnv fullFlags sampleVersion sampleAnnotations
      (some sampleMaintainers)).result = .ok fullOutput ∧
    fullOutput.spec.customResourceDefinitions.owned.length =
      sampleTemplate.spec.customResourceDefinitions.owned.length ∧
    fullOutput.spec.customResourceDefinitions.owned.map (·.name) =
      sampleTemplate.spec.customResourceDefinitions.owned.map (·.name) ∧
    (∀ d ∈ fullOutput.spec.customResourceDefinitions.owned,
      d.name = "performanceprofiles.performance.openshift.io" →
        d.displayName = "Performance Profile") ∧
    ∀ (i : Nat) (d : CRDDescription),
      sampleTemplate.spec.customResourceDefinitions.owned[i]? = some d →
      (d.name = "performanceprofiles.performance.openshift.io" →
        fullOutput.spec.customResourceDefinitions.owned[i]? =
          some { d with displayName := "Performance Profile" }) ∧
      (d.name ≠ "performanceprofiles.performance.openshift.io" →
        fullOutput.spec.customResourceDefinitions.owned[i]? = some d) :=
  ⟨rfl, rfl, generateUnifiedCSV_owned_crds sampleEnv fullFlags sampleVersion sampleAnnotations
    (some sampleMaintainers) sampleTemplate fullOutput rfl rfl⟩

/-- The annotations of a returned document, read at any key: the skip-range
flag first, then the overlay, then the image flag, then the template. -/
theorem generateUnifiedCSV_annotations {env : Env} {flags : Flags}
    {semverVersion : SemVersion} {extraAnnotations : GoMap} {maintainers : Option GoMap}
    {out : ClusterServiceVersion}
    (hnd : (GoMap.keys extraAnnotations).Nodup)
    (h : (generateUnifiedCSV env flags semverVersion extraAnnotations maintainers).result =
      .ok out) :
    ∃ T tann ann, env.unmarshalCSV flags.operatorCSVTemplate = .ok T ∧
      T.annotations = some tann ∧ out.annotations = some ann ∧
      ∀ k, GoMap.get ann k =
        if flags.skipRange ≠ "" ∧ k = "olm.skipRange" then some flags.skipRange
        else match GoMap.get extraAnnotations k with
          | some v => some v
          | none =>
            if k = "containerImage" then some flags.operatorImage else GoMap.get tann k := by
  obtain ⟨T, S, S', raw, tann, hT, -, -, -, -, ha, rfl⟩ :=
    (composeCSV_eq_ok_iff _ _ _ _ _ _).mp (composeCSV_of_generateUnifiedCSV h)
  refine ⟨T, tann, _, hT, ha, rfl, fun k => ?_⟩
  rw [get_setSkipRange, get_mergeAnnotations _ _ hnd]
  by_cases hk : k = "containerImage"
  · subst hk
    simp only [GoMap.get_set_self, if_true]
  · simp only [GoMap.get_set_of_ne _ _ hk, hk, if_false]

/-- C5: with an overlay of distinct keys, the `containerImage` annotation of
the returned document is the overlay's value for that key when the overlay
has the key, and the image flag when it has not, whatever the template had. -/
theorem generateUnifiedCSV_containerImage (env : Env) (flags : Flags)
    (semverVersion : SemVersion) (extraAnnotations : GoMap) (maintainers : Option GoMap)
    (out : ClusterServiceVersion)
    (hnd : (GoMap.keys extraAnnotations).Nodup)
    (h : (generateUnifiedCSV env flags semverVersion extraAnnotations maintainers).result =
      .ok out) :
    ∃ ann, out.annotations = some ann ∧
      (∀ X, ("containerImage", X) ∈ extraAnnotations →
        GoMap.get ann "containerImage" = some X) ∧
      ("containerImage" ∉ GoMap.keys extraAnnotations →
        GoMap.get ann "containerImage" = some flags.operatorImage) := by
  obtain ⟨T, tann, ann, -, -, hann, hget⟩ := generateUnifiedCSV_annotations hnd h
  have hne : ¬ ("containerImage" = "olm.skipRange") := by decide
  refine ⟨ann, hann, ?_, ?_⟩
  · intro X hX
    rw [hget, (GoMap.get_eq_some_iff hnd _ _).mpr hX]
    simp [hne]
  · intro hX
    rw [hget, GoMap.get_eq_none_of_not_mem_keys hX]
    simp [hne]

/-- C5 on the sample overlay, which sets `containerImage` to a mirror of the
image. -/
theorem generateUnifiedCSV_containerImage_witness :
    (GoMap.keys sampleAnnotations).Nodup ∧
    (generateUnifiedCSV sampleEnv fullFlags sampleVersion sampleAnnotations
      (some sampleMaintainers)).result = .ok fullOutput ∧
    ("containerImage", "quay.io/mirror/operator:4.2.0") ∈ sampleAnnotations ∧
    ∃ ann, fullOutput.annotations = some ann ∧
      (∀ X, ("containerImage", X) ∈ sampleAnnotations →
        GoMap.get ann "containerImage" = some X) ∧
      ("containerImage" ∉ GoMap.keys sampleAnnotations →
        GoMap.get ann "containerImage" = some fullFlags.operatorImage) :=
  ⟨by decide, rfl, by decide,
    generateUnifiedCSV_containerImage sampleEnv fullFlags sampleVersion sampleAnnotations
      (some sampleMaintainers) fullOutput (by decide) rfl⟩

/-- C6, as the code has it: with an overlay of distinct keys, for every key
of the overlay other than `olm.skipRange`, and for `olm.skipRange` too when
the skip-range flag is empty, the annotation of the returned document at that
key is the overlay's value. -/
theorem generateUnifiedCSV_overlay_wins (env : Env) (flags : Flags)
    (semverVersion : SemVersion) (extraAnnotations : GoMap) (maintainers : Option GoMap)
    (out : ClusterServiceVersion) (k v : String)
    (hnd : (GoMap.keys extraAnnotations).Nodup)
    (h : (generateUnifiedCSV env flags semverVersion extraAnnotations maintainers).result =
      .ok out)
    (hk : (k, v) ∈ extraAnnotations)
    (hs : flags.skipRange = "" ∨ k ≠ "olm.skipRange") :
    ∃ ann, out.annotations = some ann ∧ GoMap.get ann k = some v := by
  obtain ⟨T, tann, ann, -, -, hann, hget⟩ := generateUnifiedCSV_annotations hnd h
  refine ⟨ann, hann, ?_⟩
  rw [hget, (GoMap.get_eq_some_iff hnd _ _).mpr hk]
  have hcond : ¬ (flags.skipRange ≠ "" ∧ k = "olm.skipRange") := by
    rintro ⟨h₁, h₂⟩
    rcases hs with hs | hs
    · exact h₁ hs
    · exact hs h₂
  simp only [hcond, if_false]

/-- C6 on the sample run, at the overlay key `containerImage`, with a
non-empty skip-range flag. -/
theorem generateUnifiedCSV_overlay_wins_witness :
    (GoMap.keys sampleAnnotations).Nodup ∧
    (generateUnifiedCSV sampleEnv fullFlags sampleVersion sampleAnnotations
      (some sampleMaintainers)).result = .ok fullOutput ∧
    ("containerImage", "quay.io/mirror/operator:4.2.0") ∈ sampleAnnotations ∧
    (fullFlags.skipRange = "" ∨ "containerImage" ≠ "olm.skipRange") ∧
    ∃ ann, fullOutput.annotations = some ann ∧
      GoMap.get ann "containerImage" = some "quay.io/mirror/operator:4.2.0" :=
  ⟨by decide, rfl, by decide, by decide,
    generateUnifiedCSV_overlay_wins sampleEnv fullFlags sampleVersion sampleAnnotations
      (some sampleMaintainers) fullOutput "containerImage" "quay.io/mirror/operator:4.2.0"
      (by decide) rfl (by decide) (by decide)⟩

/-- C6 as stated fails: the sample overlay has the key `olm.skipRange` with
value `>=4.0.0 <4.2.0`, the skip-range flag is `>=4.1.0 <4.2.0`, the run
succeeds, and the annotation of the returned document at `olm.skipRange` is
the flag, not the overlay's value. -/
theorem generateUnifiedCSV_overlay_skipRange_counterexample :
    (GoMap.keys sampleAnnotations).Nodup ∧
    ("olm.skipRange", ">=4.0.0 <4.2.0") ∈ sampleAnnotations ∧
    fullFlags.skipRange = ">=4.1.0 <4.2.0" ∧
    (generateUnifiedCSV sampleEnv fullFlags sampleVersion sampleAnnotations
      (some sampleMaintainers)).result = .ok fullOutput ∧
    fullOutput.annotations.bind (fun ann => GoMap.get ann "olm.skipRange") =
      some ">=4.1.0 <4.2.0" ∧
    fullOutput.annotations.bind (fun ann => GoMap.get ann "olm.skipRange") ≠
      some ">=4.0.0 <4.2.0" :=
  ⟨by decide, by decide, rfl, rfl, by decide, by decide⟩

/-- C7: the maintainers of the returned document are the template's
maintainers, unchanged and in their order, followed by one entry
`{Name: k, Email: v}` per pair `(k, v)` of the overlay, in the order the
overlay was visited, and nothing else; so the length grows by the number of
overlay entries, and an empty or nil overlay leaves the list as the template
had it. -/
theorem generateUnifiedCSV_maintainers (env : Env) (flags : Flags)
    (semverVersion : SemVersion) (extraAnnotations : GoMap) (maintainers : Option GoMap)
    (T out : ClusterServiceVersion)
    (hT : env.unmarshalCSV flags.operatorCSVTemplate = .ok T)
    (h : (generateUnifiedCSV env flags semverVersion extraAnnotations maintainers).result =
      .ok out) :
    out.spec.maintainers =
      T.spec.maintainers ++
        (maintainers.getD []).map (fun kv => ({ name := kv.1, email := kv.2 } : Maintainer)) ∧
    out.spec.maintainers.length = T.spec.maintainers.length + (maintainers.getD []).length ∧
    (maintainers = none ∨ maintainers = some [] → out.spec.maintainers = T.spec.maintainers) := by
  obtain ⟨T', S, S', raw, ann, hT', -, -, -, -, -, rfl⟩ :=
    (composeCSV_eq_ok_iff _ _ _ _ _ _).mp (composeCSV_of_generateUnifiedCSV h)
  rw [hT] at hT'
  injection hT' with hT'
  subst hT'
  have hshape : appendMaintainers T.spec.maintainers maintainers =
      T.spec.maintainers ++
        (maintainers.getD []).map
          (fun kv => ({ name := kv.1, email := kv.2 } : Maintainer)) := by
    cases maintainers with
    | none => simp [appendMaintainers]
    | some P => simp [appendMaintainers_some]
  refine ⟨hshape, ?_, ?_⟩
  · show (appendMaintainers T.spec.maintainers maintainers).length = _
    rw [hshape]
    simp
  · intro hempty
    show appendMaintainers T.spec.maintainers maintainers = _
    rw [hshape]
    rcases hempty with rfl | rfl <;> simp

/-- C7 on the sample run: one template maintainer, two overlay entries. -/
theorem generateUnifiedCSV_maintainers_witness :
    sampleEnv.unmarshalCSV fullFlags.operatorCSVTemplate = .ok sampleTemplate ∧
    (generateUnifiedCSV sampleEnv fullFlags sampleVersion sampleAnnotations
      (some sampleMaintainers)).result = .ok fullOutput ∧
    fullOutput.spec.maintainers =
      sampleTemplate.spec.maintainers ++
        ((some sampleMaintainers).getD []).map
          (fun kv => ({ name := kv.1, email := kv.2 } : Maintainer)) ∧
    fullOutput.spec.maintainers.length =
      sampleTemplate.spec.maintainers.length + ((some sampleMaintainers).getD []).length ∧
    (some sampleMaintainers = none ∨ some sampleMaintainers = some [] →
      fullOutput.spec.maintainers = sampleTemplate.spec.maintainers) :=
  ⟨rfl, rfl, generateUnifiedCSV_maintainers sampleEnv fullFlags sampleVersion sampleAnnotations
    (some sampleMaintainers) sampleTemplate fullOutput rfl rfl⟩

/-- C8: with an overlay of distinct keys, the `olm.skipRange` annotation of
the returned document is the skip-range flag when the flag is non-empty,
whatever the template and the overlay have there; with an empty flag it is
the overlay's value when the overlay has the key, else what the template has
(a value or nothing). -/
theorem generateUnifiedCSV_skipRange (env : Env) (flags : Flags)
    (semverVersion : SemVersion) (extraAnnotations : GoMap) (maintainers : Option GoMap)
    (out : ClusterServiceVersion)
    (hnd : (GoMap.keys extraAnnotations).Nodup)
    (h : (generateUnifiedCSV env flags semverVersion extraAnnotations maintainers).result =
      .ok out) :
    ∃ T tann ann, env.unmarshalCSV flags.operatorCSVTemplate = .ok T ∧
      T.annotations = some tann ∧ out.annotations = some ann ∧
      (flags.skipRange ≠ "" → GoMap.get ann "olm.skipRange" = some flags.skipRange) ∧
      (flags.skipRange = "" →
        (∀ v, ("olm.skipRange", v) ∈ extraAnnotations →
          GoMap.get ann "olm.skipRange" = some v) ∧
        ("olm.skipRange" ∉ GoMap.keys extraAnnotations →
          GoMap.get ann "olm.skipRange" = GoMap.get tann "olm.skipRange")) := by
  obtain ⟨T, tann, ann, hT, ha, hann, hget⟩ := generateUnifiedCSV_annotations hnd h
  have hne : ¬ ("olm.skipRange" = "containerImage") := by decide
  refine ⟨T, tann, ann, hT, ha, hann, ?_, ?_⟩
  · intro hs
    rw [hget]
    simp [hs]
  · intro hs
    constructor
    · intro v hv
      rw [hget, (GoMap.get_eq_some_iff hnd _ _).mpr hv]
      simp [hs]
    · intro hv
      rw [hget, GoMap.get_eq_none_of_not_mem_keys hv]
      simp [hs, hne]

/-- C8 on the sample run with the skip-range flag set, where the template and
the overlay both have a value of their own for `olm.skipRange`. -/
theorem generateUnifiedCSV_skipRange_witness :
    (GoMap.keys sampleAnnotations).Nodup ∧
    (generateUnifiedCSV sampleEnv fullFlags sampleVersion sampleAnnotations
      (some sampleMaintainers)).result = .ok fullOutput ∧
    ∃ T tann ann, sampleEnv.unmarshalCSV fullFlags.operatorCSVTemplate = .ok T ∧
      T.annotations = some tann ∧ fullOutput.annotations = some ann ∧
      (fullFlags.skipRange ≠ "" →
        GoMap.get ann "olm.skipRange" = some fullFlags.skipRange) ∧
      (fullFlags.skipRange = "" →
        (∀ v, ("olm.skipRange", v) ∈ sampleAnnotations →
          GoMap.get ann "olm.skipRange" = some v) ∧
        ("olm.skipRange" ∉ GoMap.keys sampleAnnotations →
          GoMap.get ann "olm.skipRange" = GoMap.get tann "olm.skipRange")) :=
  ⟨by decide, rfl,
    generateUnifiedCSV_skipRange sampleEnv fullFlags sampleVersion sampleAnnotations
      (some sampleMaintainers) fullOutput (by decide) rfl⟩

/-- C9: take two enumerations of one annotations overlay of distinct keys and
two enumerations of one maintainers overlay. When the run on the first pair
returns a document, the in-memory part on the second pair produces a document
too (the one the second run returns, when it returns); the two documents
have annotation maps that read alike at every key, the same name, the same
specification apart from the maintainers, and maintainer lists that are the
template's list followed by two permutations of the same entries. -/
theorem generateUnifiedCSV_overlay_order (env : Env) (flags : Flags)
    (semverVersion : SemVersion) (A₁ A₂ P₁ P₂ : GoMap) (T o₁ : ClusterServiceVersion)
    (hT : env.unmarshalCSV flags.operatorCSVTemplate = .ok T)
    (hA : A₁.Perm A₂) (hP : P₁.Perm P₂)
    (hnd : (GoMap.keys A₁).Nodup)
    (h₁ : (generateUnifiedCSV env flags semverVersion A₁ (some P₁)).result = .ok o₁) :
    ∃ o₂, composeCSV env flags semverVersion A₂ (some P₂) = .ok o₂ ∧
      (∀ o, (generateUnifiedCSV env flags semverVersion A₂ (some P₂)).result = .ok o →
        o = o₂) ∧
      (∃ a₁ a₂, o₁.annotations = some a₁ ∧ o₂.annotations = some a₂ ∧
        ∀ k, GoMap.get a₁ k = GoMap.get a₂ k) ∧
      o₁.name = o₂.name ∧
      { o₁.spec with maintainers := [] } = { o₂.spec with maintainers := [] } ∧
      ∃ s₁ s₂, o₁.spec.maintainers = T.spec.maintainers ++ s₁ ∧
        o₂.spec.maintainers = T.spec.maintainers ++ s₂ ∧ s₁.Perm s₂ := by
  obtain ⟨T', S, S', raw, ann, hT', hS, hlen, hS', hraw, ha, rfl⟩ :=
    (composeCSV_eq_ok_iff _ _ _ _ _ _).mp (composeCSV_of_generateUnifiedCSV h₁)
  rw [hT] at hT'
  injection hT' with hT'
  subst hT'
  have hnd₂ : (GoMap.keys A₂).Nodup := (hA.map Prod.fst).nodup_iff.mp hnd
  have hcomp := (composeCSV_eq_ok_iff env flags semverVersion A₂ (some P₂) _).mpr
    ⟨T, S, S', raw, ann, hT, hS, hlen, hS', hraw, ha, rfl⟩
  refine ⟨_, hcomp, ?_, ⟨_, _, rfl, rfl, ?_⟩, rfl, ?_, ?_⟩
  · intro o ho
    have := composeCSV_of_generateUnifiedCSV ho
    rw [hcomp] at this
    injection this with this
    exact this.symm
  · intro k
    rw [get_setSkipRange, get_setSkipRange, get_mergeAnnotations _ _ hnd,
      get_mergeAnnotations _ _ hnd₂, GoMap.get_of_perm hA hnd k]
  · rfl
  · refine ⟨_, _, appendMaintainers_some _ _, appendMaintainers_some _ _, hP.map _⟩

/-- C9 on the sample overlays and their reversals. -/
theorem generateUnifiedCSV_overlay_order_witness :
    sampleEnv.unmarshalCSV fullFlags.operatorCSVTemplate = .ok sampleTemplate ∧
    sampleAnnotations.Perm sampleAnnotations.reverse ∧
    sampleMaintainers.Perm sampleMaintainers.reverse ∧
    (GoMap.keys sampleAnnotations).Nodup ∧
    (generateUnifiedCSV sampleEnv fullFlags sampleVersion sampleAnnotations
      (some sampleMaintainers)).result = .ok fullOutput ∧
    ∃ o₂, composeCSV sampleEnv fullFlags sampleVersion sampleAnnotations.reverse
        (some sampleMaintainers.reverse) = .ok o₂ ∧
      (∀ o, (generateUnifiedCSV sampleEnv fullFlags sampleVersion sampleAnnotations.reverse
          (some sampleMaintainers.reverse)).result = .ok o → o = o₂) ∧
      (∃ a₁ a₂, fullOutput.annotations = some a₁ ∧ o₂.annotations = some a₂ ∧
        ∀ k, GoMap.get a₁ k = GoMap.get a₂ k) ∧
      fullOutput.name = o₂.name ∧
      { fullOutput.spec with maintainers := [] } = { o₂.spec with maintainers := [] } ∧
      ∃ s₁ s₂, fullOutput.spec.maintainers = sampleTemplate.spec.maintainers ++ s₁ ∧
        o₂.spec.maintainers = sampleTemplate.spec.maintainers ++ s₂ ∧ s₁.Perm s₂ :=
  ⟨rfl, (List.reverse_perm _).symm, (List.reverse_perm _).symm, by decide, rfl,
    generateUnifiedCSV_overlay_order sampleEnv fullFlags sampleVersion sampleAnnotations
      sampleAnnotations.reverse sampleMaintainers sampleMaintainers.reverse sampleTemplate
      fullOutput rfl (List.reverse_perm _).symm (List.reverse_perm _).symm (by decide) rfl⟩

/-- The index expression of line 74 on a single deployment without
containers. -/
theorem composeCSV_no_container {env : Env} {flags : Flags}
    (semverVersion : SemVersion) (extraAnnotations : GoMap) (maintainers : Option GoMap)
    {T : ClusterServiceVersion} {S : StrategySpec} {d : StrategyDeployment}
    (hT : env.unmarshalCSV flags.operatorCSVTemplate = .ok T)
    (hS : env.unmarshalStrategySpec T = .ok S)
    (hd : S.deployments = [d])
    (hc : d.spec.template.spec.containers = []) :
    composeCSV env flags semverVersion extraAnnotations maintainers =
      .error (.indexOutOfRange 0 0) := by
  unfold composeCSV
  simp [hT, hS, hd, setOperatorImage, hc]

/-- The map assignment of line 91 on a template without annotations. -/
theorem composeCSV_nil_annotations {env : Env} {flags : Flags}
    (semverVersion : SemVersion) (extraAnnotations : GoMap) (maintainers : Option GoMap)
    {T : ClusterServiceVersion} {S : StrategySpec} {d : StrategyDeployment}
    {c : Container} {cs : List Container}
    (hT : env.unmarshalCSV flags.operatorCSVTemplate = .ok T)
    (hS : env.unmarshalStrategySpec T = .ok S)
    (hd : S.deployments = [d])
    (hc : d.spec.template.spec.containers = c :: cs)
    (hJ : ∀ s, ∃ raw, env.jsonMarshal s = .ok raw)
    (ha : T.annotations = none) :
    composeCSV env flags semverVersion extraAnnotations maintainers =
      .error .nilMapAssignment := by
  obtain ⟨raw, hraw⟩ := hJ
    { S with
      deployments :=
        [{ d with spec := { d.spec with template := { d.spec.template with
            spec := { d.spec.template.spec with
              containers := { c with image := flags.operatorImage } :: cs } } } }] }
  unfold composeCSV
  simp [hT, hS, hd, setOperatorImage, hc, hraw, ha]

/-- C10: for a template that loads, with `json.Marshal` succeeding, the
in-memory part of `generateUnifiedCSV` panics exactly when the deployment
count is not one, or the single deployment has no container, or the template
has a nil annotations map; in every other case it produces a document, for
every choice of flags, version and overlays. The panic is the deployment-count
error in the first case, an index out of range in the second, and the
assignment to a nil map otherwise. -/
theorem composeCSV_aborts_iff (env : Env) (flags : Flags)
    (semverVersion : SemVersion) (extraAnnotations : GoMap) (maintainers : Option GoMap)
    (T : ClusterServiceVersion) (S : StrategySpec)
    (hT : env.unmarshalCSV flags.operatorCSVTemplate = .ok T)
    (hS : env.unmarshalStrategySpec T = .ok S)
    (hJ : ∀ s, ∃ raw, env.jsonMarshal s = .ok raw) :
    ((∃ p, composeCSV env flags semverVersion extraAnnotations maintainers = .error p) ↔
      (S.deployments.length ≠ 1 ∨
        (∃ d, S.deployments = [d] ∧ d.spec.template.spec.containers = []) ∨
        T.annotations = none)) ∧
    (¬ (S.deployments.length ≠ 1 ∨
        (∃ d, S.deployments = [d] ∧ d.spec.template.spec.containers = []) ∨
        T.annotations = none) →
      ∃ out, composeCSV env flags semverVersion extraAnnotations maintainers = .ok out) ∧
    (S.deployments.length ≠ 1 →
      composeCSV env flags semverVersion extraAnnotations maintainers =
        .error (.err ("expected 1 deployment, found " ++ toString S.deployments.length))) ∧
    ((∃ d, S.deployments = [d] ∧ d.spec.template.spec.containers = []) →
      composeCSV env flags semverVersion extraAnnotations maintainers =
        .error (.indexOutOfRange 0 0)) ∧
    ((∃ d, S.deployments = [d] ∧ d.spec.template.spec.containers ≠ []) →
      T.annotations = none →
      composeCSV env flags semverVersion extraAnnotations maintainers =
        .error .nilMapAssignment) := by
  have hcount := fun hn : S.deployments.length ≠ 1 =>
    @composeCSV_deployment_count env flags semverVersion extraAnnotations maintainers T S
      hT hS hn
  have hindex : (∃ d, S.deployments = [d] ∧ d.spec.template.spec.containers = []) →
      composeCSV env flags semverVersion extraAnnotations maintainers =
        .error (.indexOutOfRange 0 0) := by
    rintro ⟨d, hd, hc⟩
    exact composeCSV_no_container semverVersion extraAnnotations maintainers hT hS hd hc
  have hnil : (∃ d, S.deployments = [d] ∧ d.spec.template.spec.containers ≠ []) →
      T.annotations = none →
      composeCSV env flags semverVersion extraAnnotations maintainers =
        .error .nilMapAssignment := by
    rintro ⟨d, hd, hc⟩ ha
    obtain ⟨c, cs, hcs⟩ := List.exists_cons_of_ne_nil hc
    exact composeCSV_nil_annotations semverVersion extraAnnotations maintainers hT hS hd hcs
      hJ ha
  have hok : ¬ (S.deployments.length ≠ 1 ∨
        (∃ d, S.deployments = [d] ∧ d.spec.template.spec.containers = []) ∨
        T.annotations = none) →
      ∃ out, composeCSV env flags semverVersion extraAnnotations maintainers = .ok out := by
    intro hnone
    simp only [not_or, not_not, not_exists, not_and] at hnone
    obtain ⟨hlen, hcont, hann⟩ := hnone
    obtain ⟨d, hd⟩ := List.length_eq_one.mp hlen
    obtain ⟨c, cs, hcs⟩ := List.exists_cons_of_ne_nil (hcont d hd)
    obtain ⟨ann, ha⟩ := Option.ne_none_iff_exists'.mp hann
    obtain ⟨raw, hraw⟩ := hJ
      { S with
        deployments :=
          [{ d with spec := { d.spec with template := { d.spec.template with
              spec := { d.spec.template.spec with
                containers := { c with image := flags.operatorImage } :: cs } } } }] }
    have hset := (setOperatorImage_eq_ok_iff S _ flags.operatorImage).mpr
      ⟨d, [], c, cs, hd, hcs, rfl⟩
    exact ⟨_, (composeCSV_eq_ok_iff env flags semverVersion extraAnnotations maintainers _).mpr
      ⟨T, S, _, raw, ann, hT, hS, hlen, hset, hraw, ha, rfl⟩⟩
  refine ⟨⟨?_, ?_⟩, hok, hcount, hindex, hnil⟩
  · rintro ⟨p, hp⟩
    by_contra hnone
    obtain ⟨out, hout⟩ := hok hnone
    rw [hout] at hp
    exact Except.noConfusion hp
  · rintro (hn | hidx | ha)
    · exact ⟨_, hcount hn⟩
    · exact ⟨_, hindex hidx⟩
    · by_cases hn : S.deployments.length ≠ 1
      · exact ⟨_, hcount hn⟩
      · obtain ⟨d, hd⟩ := List.length_eq_one.mp (not_not.mp hn)
        by_cases hc : d.spec.template.spec.containers = []
        · exact ⟨_, hindex ⟨d, hd, hc⟩⟩
        · exact ⟨_, hnil ⟨d, hd, hc⟩ ha⟩

/-- C10 on the sample template stripped of its annotations map, with one
deployment of one container: the in-memory part stops at the assignment of
line 91. -/
theorem composeCSV_aborts_iff_witness :
    (sampleEnvWith nilAnnotationsTemplate sampleStrategy).unmarshalCSV
      sampleFlags.operatorCSVTemplate = .ok nilAnnotationsTemplate ∧
    (sampleEnvWith nilAnnotationsTemplate sampleStrategy).unmarshalStrategySpec
      nilAnnotationsTemplate = .ok sampleStrategy ∧
    (∀ s, ∃ raw, (sampleEnvWith nilAnnotationsTemplate sampleStrategy).jsonMarshal s =
      .ok raw) ∧
    ((∃ p, composeCSV (sampleEnvWith nilAnnotationsTemplate sampleStrategy) sampleFlags
        sampleVersion sampleAnnotations (some sampleMaintainers) = .error p) ↔
      (sampleStrategy.deployments.length ≠ 1 ∨
        (∃ d, sampleStrategy.deployments = [d] ∧ d.spec.template.spec.containers = []) ∨
        nilAnnotationsTemplate.annotations = none)) ∧
    (¬ (sampleStrategy.deployments.length ≠ 1 ∨
        (∃ d, sampleStrategy.deployments = [d] ∧ d.spec.template.spec.containers = []) ∨
        nilAnnotationsTemplate.annotations = none) →
      ∃ out, composeCSV (sampleEnvWith nilAnnotationsTemplate sampleStrategy) sampleFlags
        sampleVersion sampleAnnotations (some sampleMaintainers) = .ok out) ∧
    (sampleStrategy.deployments.length ≠ 1 →
      composeCSV (sampleEnvWith nilAnnotationsTemplate sampleStrategy) sampleFlags
        sampleVersion sampleAnnotations (some sampleMaintainers) =
        .error (.err ("expected 1 deployment, found " ++
          toString sampleStrategy.deployments.length))) ∧
    ((∃ d, sampleStrategy.deployments = [d] ∧ d.spec.template.spec.containers = []) →
      composeCSV (sampleEnvWith nilAnnotationsTemplate sampleStrategy) sampleFlags
        sampleVersion sampleAnnotations (some sampleMaintainers) =
        .error (.indexOutOfRange 0 0)) ∧
    ((∃ d, sampleStrategy.deployments = [d] ∧ d.spec.template.spec.containers ≠ []) →
      nilAnnotationsTemplate.annotations = none →
      composeCSV (sampleEnvWith nilAnnotationsTemplate sampleStrategy) sampleFlags
        sampleVersion sampleAnnotations (some sampleMaintainers) =
        .error .nilMapAssignment) :=
  ⟨rfl, rfl, fun _ => ⟨_, rfl⟩,
    composeCSV_aborts_iff (sampleEnvWith nilAnnotationsTemplate sampleStrategy) sampleFlags
      sampleVersion sampleAnnotations (some sampleMaintainers) nilAnnotationsTemplate
      sampleStrategy rfl rfl (fun _ => ⟨_, rfl⟩)⟩

end CsvGenerator
